import Mathlib

/-!
Shallow embedding of the EvoWrite SAGE multi-agent core
(`src/user_agent.py`, `src/checker_agent.py`, `src/sage_agents.py`,
`src/sage_api.py`).

Strings are modelled as Lean `String` / `List Char`; Python floats are
modelled as exact rationals (`ℚ`); the regex fragment actually used by the
code (word-boundary-delimited literal alternations, `\?`, `\s+`, `.*`) is
modelled directly over ASCII text, which covers every pattern and every
indicator phrase in the source tables.
-/

namespace EvoWrite

/-! ### Python string primitives -/

/-- `str.lower()` restricted to the ASCII fragment used by the tables. -/
def pyLower (s : String) : List Char := s.toList.map Char.toLower

/-- Python whitespace (the characters `str.split()` splits on, ASCII part). -/
def pyIsSpace (c : Char) : Bool :=
  c == ' ' || c == '\t' || c == '\n' || c == '\r' || c == '\x0b' || c == '\x0c'

/-- Regex `\w` on ASCII text: letters, digits, underscore. -/
def isWordChar (c : Char) : Bool := c.isAlphanum || c == '_'

def charIsWordAt (s : List Char) (i : Nat) : Bool :=
  match s[i]? with
  | some c => isWordChar c
  | none => false

/-- Regex `\b`: a word boundary at offset `i` of `s` (0 ≤ i ≤ length). -/
def boundaryAt (s : List Char) (i : Nat) : Bool :=
  match i with
  | 0 => charIsWordAt s 0
  | j + 1 => charIsWordAt s j != charIsWordAt s (j + 1)

/-- Python `needle in hay` (contiguous substring; empty needle matches). -/
def pyContains (hay needle : List Char) : Bool :=
  (List.range (hay.length + 1)).any (fun i => needle.isPrefixOf (hay.drop i))

def wordCountAux : List Char → Bool → Nat
  | [], _ => 0
  | c :: cs, inWord =>
    if pyIsSpace c then wordCountAux cs false
    else (if inWord then 0 else 1) + wordCountAux cs true

/-- `len(s.split())`: number of maximal non-whitespace runs. -/
def pyWordCount (s : String) : Nat := wordCountAux s.toList false

/-! ### The regex fragment used by `UserAgent._initialize_intent_patterns`

Every intent pattern is either `\?` or `\b(lit1|lit2|...)\b` with non-empty
literal alternatives.  `re.findall` scans left to right, at each offset
requiring the leading `\b`, trying the alternatives in pattern order, and
requiring the trailing `\b`; matches are non-overlapping. -/

/-- End offset of the first alternative (in pattern order) matching at `i`
with a trailing word boundary; the leading boundary is the caller's duty.
Alternatives are non-empty literals, which the guard makes explicit. -/
def altEndAt (alts : List (List Char)) (s : List Char) (i : Nat) : Option Nat :=
  alts.findSome? (fun a =>
    if !a.isEmpty && a.isPrefixOf (s.drop i) && boundaryAt s (i + a.length)
    then some (i + a.length) else none)

/-- Fuelled scan of `re.findall(r'\b(alt1|alt2|...)\b', s)`; fuel
`s.length + 1` is always sufficient since every step advances the offset. -/
def countWBAux (alts : List (List Char)) (s : List Char) : Nat → Nat → Nat
  | 0, _ => 0
  | fuel + 1, i =>
    if s.length < i then 0
    else if boundaryAt s i then
      match altEndAt alts s i with
      | some j => 1 + countWBAux alts s fuel j
      | none => countWBAux alts s fuel (i + 1)
    else countWBAux alts s fuel (i + 1)

def countWB (alts : List String) (s : List Char) : Nat :=
  countWBAux (alts.map String.toList) s (s.length + 1) 0

/-- A lexical pattern of the intent table. -/
inductive LexPat where
  | wordAlt (alts : List String)
  | qmark
deriving DecidableEq

/-- `len(re.findall(pattern, text))` for the two pattern shapes used. -/
def countPat (p : LexPat) (s : List Char) : Nat :=
  match p with
  | .wordAlt alts => countWB alts s
  | .qmark => s.count '?'

/-! ### Intent classification (`src/user_agent.py`) -/

inductive IntentType where
  | ANSWER | ACK | R_LANGUAGE_USE | R_INFORMATION | R_REVISION
  | R_EVALUATION | R_GENERATION | NEGOTIATION | OTHER | QUESTION
  | R_CONFIRMATION | CONVERSATION | R_TRANSLATION
deriving DecidableEq, BEq, Repr

/-- `UserAgent._initialize_intent_patterns`, in declaration (= dict
insertion = iteration) order. -/
def intentPatterns : List (IntentType × List LexPat) :=
  [ (.ANSWER,
      [ .wordAlt ["what", "how", "why", "when", "where", "which", "who"],
        .wordAlt ["question", "ask", "tell me", "explain"],
        .qmark,
        .wordAlt ["help me understand", "clarify", "define"] ]),
    (.ACK,
      [ .wordAlt ["yes", "ok", "okay", "right", "correct", "thanks", "thank you"],
        .wordAlt ["i see", "i understand", "got it", "makes sense"],
        .wordAlt ["good", "great", "perfect", "excellent"] ]),
    (.R_LANGUAGE_USE,
      [ .wordAlt ["grammar", "syntax", "word choice", "vocabulary"],
        .wordAlt ["correct", "fix", "improve", "better way"],
        .wordAlt ["comma", "period", "punctuation", "spelling"],
        .wordAlt ["tense", "verb", "noun", "adjective", "adverb"] ]),
    (.R_INFORMATION,
      [ .wordAlt ["information", "details", "facts", "data"],
        .wordAlt ["research", "source", "reference", "citation"],
        .wordAlt ["background", "context", "history"] ]),
    (.R_REVISION,
      [ .wordAlt ["revise", "edit", "rewrite", "improve", "modify"],
        .wordAlt ["draft", "version", "change", "update"],
        .wordAlt ["better", "enhance", "polish", "refine"] ]),
    (.R_EVALUATION,
      [ .wordAlt ["evaluate", "assess", "judge", "rate", "score"],
        .wordAlt ["feedback", "opinion", "thoughts", "review"],
        .wordAlt ["good", "bad", "quality", "strength", "weakness"] ]),
    (.R_GENERATION,
      [ .wordAlt ["generate", "create", "write", "produce", "make"],
        .wordAlt ["example", "sample", "template", "outline"],
        .wordAlt ["idea", "suggestion", "topic", "theme"] ]),
    (.NEGOTIATION,
      [ .wordAlt ["but", "however", "although", "disagree", "different"],
        .wordAlt ["alternative", "another way", "instead"],
        .wordAlt ["negotiate", "discuss", "debate"] ]),
    (.R_CONFIRMATION,
      [ .wordAlt ["confirm", "verify", "check", "sure", "certain"],
        .wordAlt ["is this right", "am i correct", "does this work"] ]),
    (.CONVERSATION,
      [ .wordAlt ["hello", "hi", "hey", "good morning", "good afternoon"],
        .wordAlt ["how are you", "nice to meet", "chat", "talk"] ]),
    (.R_TRANSLATION,
      [ .wordAlt ["translate", "translation", "chinese", "korean"],
        .wordAlt ["mean in", "say in", "express in"] ]) ]

/-- Per-category raw score: total match count over the category's patterns. -/
def rawScore (pats : List LexPat) (low : List Char) : Nat :=
  (pats.map (fun p => countPat p low)).sum

/-- Raw match count of one intent category on input `s`. -/
def rawIntentScore (it : IntentType) (s : String) : Nat :=
  match intentPatterns.lookup it with
  | some pats => rawScore pats (pyLower s)
  | none => 0

/-- The `intent_scores` dict of `classify_intent`, as an association list in
declaration order: only categories with a strictly positive raw score get an
entry, and only for those is the raw score divided by the word count. -/
def intentScores (s : String) : List (IntentType × ℚ) :=
  intentPatterns.filterMap (fun p =>
    if 0 < rawScore p.2 (pyLower s)
    then some (p.1, (rawScore p.2 (pyLower s) : ℚ) / (pyWordCount s : ℚ))
    else none)

/-- One step of Python `max(..., key=...)`: replace only on strict increase,
so the earliest maximal element wins. -/
def pyMaxStep {α : Type} (best y : α × ℚ) : α × ℚ :=
  if best.2 < y.2 then y else best

/-- Python `max(iterable, key=...)` over a (key-distinct) association list. -/
def pyMaxBy {α : Type} : List (α × ℚ) → Option (α × ℚ)
  | [] => none
  | x :: xs => some (xs.foldl pyMaxStep x)

/-- `UserAgent.classify_intent`. -/
def classify_intent (s : String) : IntentType × ℚ :=
  match pyMaxBy (intentScores s) with
  | none => (IntentType.OTHER, 1/2)
  | some m => (m.1, min (m.2 * 2) 1)

/-! ### Quality criteria (`CheckerAgent._initialize_quality_criteria`) -/

structure QualityCriterion where
  name : String
  min_score : ℚ
  indicators : List String
  negative_indicators : List String
deriving DecidableEq

def clarityCriterion : QualityCriterion :=
  { name := "clarity", min_score := 7/10,
    indicators := ["clear explanation", "step-by-step", "examples provided"],
    negative_indicators := ["vague", "confusing", "unclear"] }

def accuracyCriterion : QualityCriterion :=
  { name := "accuracy", min_score := 8/10,
    indicators := ["factually correct", "proper grammar", "appropriate terminology"],
    negative_indicators := ["incorrect information", "grammar errors", "misleading"] }

def helpfulnessCriterion : QualityCriterion :=
  { name := "helpfulness", min_score := 7/10,
    indicators := ["actionable advice", "specific suggestions", "relevant examples"],
    negative_indicators := ["generic response", "unhelpful", "irrelevant"] }

def engagementCriterion : QualityCriterion :=
  { name := "engagement", min_score := 6/10,
    indicators := ["encouraging tone", "interactive elements", "motivational"],
    negative_indicators := ["dry", "boring", "discouraging"] }

def quality_criteria : List QualityCriterion :=
  [clarityCriterion, accuracyCriterion, helpfulnessCriterion, engagementCriterion]

/-- Number of indicator phrases present (case-insensitive substring) in the
already-lowercased content. -/
def countPresent (inds : List String) (contentLow : List Char) : Nat :=
  (inds.filter (fun ind => pyContains contentLow (pyLower ind))).length

/-- `CheckerAgent._calculate_criterion_score`. -/
def calculate_criterion_score (content : String) (c : QualityCriterion) : ℚ :=
  let contentLow := pyLower content
  let positive_count := countPresent c.indicators contentLow
  let negative_count := countPresent c.negative_indicators contentLow
  let total := c.indicators.length
  if total = 0 then 1/2
  else max 0 (min 1 ((positive_count : ℚ) / (total : ℚ) - (negative_count : ℚ) * (1/5)))

/-- `CheckerAgent._assess_quality`, keeping the per-criterion scores (the
only part of the per-criterion record the aggregate score reads). -/
def assess_quality (content : String) : List (String × ℚ) :=
  quality_criteria.map (fun c => (c.name, calculate_criterion_score content c))

/-! ### Educational standards (`CheckerAgent._initialize_educational_standards`) -/

structure EduStandard where
  name : String
  requirements : List String
deriving DecidableEq

def educational_standards : List EduStandard :=
  [ { name := "age_appropriate",
      requirements := ["suitable language level", "appropriate content complexity",
                       "no inappropriate references"] },
    { name := "pedagogically_sound",
      requirements := ["builds on prior knowledge", "scaffolded learning",
                       "clear learning objectives", "promotes self-regulation"] },
    { name := "culturally_sensitive",
      requirements := ["respects cultural differences", "inclusive language",
                       "avoids stereotypes", "considers EFL context"] },
    { name := "academically_rigorous",
      requirements := ["accurate information", "proper citations when needed",
                       "evidence-based suggestions", "promotes critical thinking"] } ]

/-- `CheckerAgent._check_requirement`, on the lowercased content. -/
def check_requirement (content : List Char) (req : String) : Bool :=
  let reqLow := pyLower req
  if pyContains reqLow "appropriate".toList then decide (50 < content.length)
  else if pyContains reqLow "scaffolded".toList then
    pyContains content "step".toList || pyContains content "first".toList ||
      pyContains content "next".toList
  else if pyContains reqLow "self-regulation".toList then
    ["goal", "plan", "monitor", "reflect", "strategy"].any
      (fun k => pyContains content k.toList)
  else if pyContains reqLow "cultural".toList then
    !pyContains content "culture".toList || pyContains content "inclusive".toList
  else if pyContains reqLow "evidence".toList then
    pyContains content "research".toList || pyContains content "study".toList ||
      pyContains content "evidence".toList
  else true

/-- `CheckerAgent._assess_educational_compliance`. -/
def assess_educational_compliance (contentLow : List Char) (reqs : List String) : ℚ :=
  if reqs.isEmpty then 0
  else ((reqs.filter (check_requirement contentLow)).length : ℚ) / (reqs.length : ℚ)

/-- `CheckerAgent._check_educational_standards`, keeping the per-standard
compliance scores. -/
def check_educational_standards (content : String) : List (String × ℚ) :=
  educational_standards.map
    (fun st => (st.name, assess_educational_compliance (pyLower content) st.requirements))

/-! ### Bias detection (`CheckerAgent._initialize_bias_patterns`)

The bias regexes are word-boundary-delimited literal alternations joined by
`.*` (any non-newline gap, possibly empty) or `\s+` (one or more whitespace
characters).  `re.IGNORECASE` is modelled by lowercasing the content; the
patterns are already lowercase. -/

inductive BPart where
  | grp (alts : List String)
  | gapAny
  | gapWs
deriving DecidableEq

/-- Whether the remaining pattern parts match starting at offset `i`. -/
def matchPartsAt (s : List Char) : List BPart → Nat → Bool
  | [], _ => true
  | .grp alts :: rest, i =>
    boundaryAt s i && alts.any (fun a =>
      let al := a.toList
      al.isPrefixOf (s.drop i) && boundaryAt s (i + al.length) &&
        matchPartsAt s rest (i + al.length))
  | .gapAny :: rest, i =>
    (List.range (s.length + 1)).any (fun j =>
      decide (i ≤ j) && ((s.drop i).take (j - i)).all (fun c => !(c == '\n')) &&
        matchPartsAt s rest j)
  | .gapWs :: rest, i =>
    (List.range (s.length + 1)).any (fun j =>
      decide (i < j) && ((s.drop i).take (j - i)).all pyIsSpace &&
        matchPartsAt s rest j)

/-- `re.search`-style existence of a match anywhere in the text. -/
def patSomewhere (pat : List BPart) (s : List Char) : Bool :=
  (List.range (s.length + 1)).any (fun i => matchPartsAt s pat i)

def bias_patterns : List (String × List (List BPart)) :=
  [ ("gender_bias",
      [ [.grp ["he", "his", "him"], .gapAny, .grp ["strong", "leader", "assertive"]],
        [.grp ["she", "her"], .gapAny, .grp ["emotional", "sensitive", "nurturing"]] ]),
    ("cultural_bias",
      [ [.grp ["western", "eastern"], .gapWs, .grp ["way", "approach", "method"]],
        [.grp ["american", "chinese", "korean"], .gapWs,
         .grp ["students", "learners"], .gapWs, .grp ["are", "tend to"]] ]),
    ("linguistic_bias",
      [ [.grp ["native"], .gapWs, .grp ["speaker"]],
        [.grp ["perfect"], .gapWs, .grp ["english"]],
        [.grp ["broken"], .gapWs, .grp ["english"]] ]),
    ("ability_bias",
      [ [.grp ["smart", "intelligent"], .gapWs, .grp ["students", "learners"]],
        [.grp ["slow", "weak"], .gapWs, .grp ["learners", "students"]] ]) ]

structure BiasDetection where
  detected_biases : List String
  bias_free : Bool
deriving DecidableEq

/-- `CheckerAgent._detect_bias`: a category is detected iff any of its
patterns matches anywhere in the response content. -/
def detect_bias (content : String) : BiasDetection :=
  let low := pyLower content
  let det := bias_patterns.filterMap (fun bp =>
    if bp.2.any (fun pat => patSomewhere pat low) then some bp.1 else none)
  { detected_biases := det, bias_free := det.isEmpty }

/-! ### Interactions and consistency checking -/

/-- The `Interaction` row fields the checker and feedback paths read.  Lists
of interactions are kept newest-first, modelling the `created_at desc`
ordering of the queries. -/
structure Interaction where
  id : Nat
  learner_id : Nat
  user_input : String
  assistant_response : Option String
  user_rating : Option Int
  completed_at : Option ℚ
deriving DecidableEq

/-- `CheckerAgent._get_recent_interactions`: same learner, non-null
response, newest first, at most `limit` rows. -/
def get_recent_interactions (store : List Interaction) (learner_id limit : Nat) :
    List Interaction :=
  (store.filter (fun it => it.learner_id == learner_id && it.assistant_response.isSome)).take limit

def consistency_checks : List String :=
  ["terminology", "tone", "difficulty_level", "learning_objectives", "feedback_style"]

def encouraging_words : List String :=
  ["great", "excellent", "good", "well done", "keep up"]

/-- `CheckerAgent._assess_consistency_aspect`.  A prior response counts as
encouraging only when it is non-null and non-empty (Python truthiness). -/
def assess_consistency_aspect (content : String) (recent : List Interaction)
    (aspect : String) : ℚ :=
  if recent.isEmpty then 1
  else
    let cur := pyLower content
    if aspect == "tone" then
      let current_encouraging := encouraging_words.any (fun w => pyContains cur (pyLower w))
      let past_encouraging_count := (recent.filter (fun it =>
        match it.assistant_response with
        | some r => !(r == "") && encouraging_words.any (fun w => pyContains (pyLower r) (pyLower w))
        | none => false)).length
      if recent.length == 0 then 1
      else
        let ratio := (past_encouraging_count : ℚ) / (recent.length : ℚ)
        if decide (1/2 < ratio) && current_encouraging then 1
        else if decide (ratio ≤ 1/2) && !current_encouraging then 1
        else 1/2
    else 4/5

/-- Result of `CheckerAgent._check_consistency`; `overall_consistency` is
`none` in the no-learner-id branch, whose returned dict has no
`overall_consistency` key. -/
structure ConsistencyResult where
  overall_consistency : Option ℚ
  consistent : Bool
deriving DecidableEq

/-- `CheckerAgent._check_consistency`.  The learner id read from the
processed input is falsy (Python) when absent or zero. -/
def check_consistency (content : String) (lid : Option Nat) (store : List Interaction) :
    ConsistencyResult :=
  match lid with
  | none => { overall_consistency := none, consistent := true }
  | some l =>
    if l == 0 then { overall_consistency := none, consistent := true }
    else
      let recent := get_recent_interactions store l 5
      let results := consistency_checks.map (fun a => assess_consistency_aspect content recent a)
      let overall := if results.isEmpty then 1 else results.sum / (results.length : ℚ)
      { overall_consistency := some overall, consistent := decide (7/10 ≤ overall) }

/-! ### Aggregation and approval (`CheckerAgent.validate_response`) -/

/-- Python `round(x, 3)` on exact rationals: round half to even. -/
def roundHalfEven (q : ℚ) : ℤ :=
  if q - ⌊q⌋ < 1/2 then ⌊q⌋
  else if 1/2 < q - ⌊q⌋ then ⌊q⌋ + 1
  else if ⌊q⌋ % 2 = 0 then ⌊q⌋ else ⌊q⌋ + 1

def pyRound3 (q : ℚ) : ℚ := (roundHalfEven (q * 1000) : ℚ) / 1000

/-- `consistency_check.get('overall_consistency', 1.0)`. -/
def consistencyScoreUsed (cc : ConsistencyResult) : ℚ :=
  cc.overall_consistency.getD 1

/-- `CheckerAgent._calculate_overall_score`. -/
def calculate_overall_score (qs ec : List (String × ℚ)) (bias : BiasDetection)
    (cc : ConsistencyResult) : ℚ :=
  let quality_avg := (qs.map Prod.snd).sum / (qs.length : ℚ)
  let educational_avg := (ec.map Prod.snd).sum / (ec.length : ℚ)
  let bias_score : ℚ := if bias.bias_free then 1 else 0
  let consistency_score := consistencyScoreUsed cc
  pyRound3 (quality_avg * (2/5) + educational_avg * (3/10) +
    bias_score * (1/5) + consistency_score * (1/10))

structure ValidationResult where
  overall_score : ℚ
  quality_scores : List (String × ℚ)
  educational_compliance : List (String × ℚ)
  bias_detection : BiasDetection
  consistency_check : ConsistencyResult
  approved : Bool
deriving DecidableEq

/-- `CheckerAgent.validate_response` (the score/approval computation; the
response under validation is its `content` string, `lid` is the learner id
of the processed input, `store` the stored interactions newest-first). -/
def validate_response (content : String) (lid : Option Nat) (store : List Interaction) :
    ValidationResult :=
  let quality_scores := assess_quality content
  let educational_compliance := check_educational_standards content
  let bias_detection := detect_bias content
  let consistency_check := check_consistency content lid store
  let overall_score :=
    calculate_overall_score quality_scores educational_compliance bias_detection consistency_check
  { overall_score := overall_score,
    quality_scores := quality_scores,
    educational_compliance := educational_compliance,
    bias_detection := bias_detection,
    consistency_check := consistency_check,
    approved := decide ((7:ℚ)/10 ≤ overall_score) && bias_detection.detected_biases.isEmpty }

/-! ### Agent memory (`src/sage_agents.py` `AgentMemory`, `src/user_agent.py`
memory operations).  Timestamps are rationals measured in seconds. -/

structure AgentMemory where
  id : Nat
  learner_id : Nat
  memory_key : String
  memory_type : String
  content : String
  importance_score : ℚ
  access_count : Nat
  last_accessed : ℚ
  decay_factor : ℚ
  retention_strength : ℚ
  created_at : ℚ
deriving DecidableEq

/-- The Ebbinghaus-style decay formula of `AgentMemory.update_access`:
`importance × 1 / (1 + 0.1 × age_days)`. -/
def retentionAt (importance age_days : ℚ) : ℚ :=
  importance * (1 / (1 + (1/10) * age_days))

/-- `AgentMemory.update_access` at wall-clock time `now` (seconds):
`age_days` is the elapsed time since creation divided by 86400. -/
def update_access (m : AgentMemory) (now : ℚ) : AgentMemory :=
  { m with
    access_count := m.access_count + 1,
    last_accessed := now,
    retention_strength := retentionAt m.importance_score ((now - m.created_at) / 86400) }

/-- The `order_by(importance desc, last_accessed desc)` comparison. -/
def memOrder (a b : AgentMemory) : Bool :=
  if a.importance_score = b.importance_score then decide (b.last_accessed ≤ a.last_accessed)
  else decide (b.importance_score ≤ a.importance_score)

/-- Stable insertion placing `x` before the first element it precedes. -/
def insOrd {α : Type} (le : α → α → Bool) (x : α) : List α → List α
  | [] => [x]
  | y :: ys => if le x y then x :: y :: ys else y :: insOrd le x ys

/-- Stable sort modelling the record store's `order_by`. -/
def sortOrd {α : Type} (le : α → α → Bool) : List α → List α
  | [] => []
  | x :: xs => insOrd le x (sortOrd le xs)

/-- `UserAgent.retrieve_memory`: filter by learner, optional substring
filter on the key and exact filter on the type (both skipped for an empty
string, which is falsy in Python), order, truncate, and update the access
statistics of every returned record. -/
def retrieve_memory (store : List AgentMemory) (learner_id : Nat)
    (memory_key memory_type : Option String) (limit : Nat) (now : ℚ) :
    List AgentMemory :=
  let q1 := store.filter (fun m => m.learner_id == learner_id)
  let q2 := match memory_key with
    | some k => if k == "" then q1 else q1.filter (fun m => pyContains m.memory_key.toList k.toList)
    | none => q1
  let q3 := match memory_type with
    | some t => if t == "" then q2 else q2.filter (fun m => m.memory_type == t)
    | none => q2
  let mems := (sortOrd memOrder q3).take limit
  mems.map (fun m => update_access m now)

/-! ### Feedback path (`src/sage_api.py` `submit_feedback`,
`src/user_agent.py` `UserAgent.handle_feedback` / `store_memory`) -/

structure SageState where
  interactions : List Interaction
  memories : List AgentMemory
deriving DecidableEq

/-- `Interaction.query.get(id)`: primary-key lookup. -/
def getInteraction (st : SageState) (iid : Nat) : Option Interaction :=
  st.interactions.find? (fun it => it.id == iid)

/-- `UserAgent.store_memory`: appends a fresh `AgentMemory` row with the
model defaults (`access_count 0`, `decay_factor 1`, `retention_strength 1`,
timestamps `now`). -/
def store_memory (st : SageState) (learner_id : Nat) (memory_key content memory_type : String)
    (importance : ℚ) (now : ℚ) : SageState :=
  { st with memories := st.memories ++
      [ { id := st.memories.length + 1, learner_id := learner_id,
          memory_key := memory_key, memory_type := memory_type, content := content,
          importance_score := importance, access_count := 0, last_accessed := now,
          decay_factor := 1, retention_strength := 1, created_at := now } ] }

/-- `UserAgent.handle_feedback`: a silent no-op when the interaction id does
not resolve; otherwise records the rating and completion time and, when
feedback text is present and non-empty (Python truthiness), stores one
long-term memory with importance `rating / 5`. -/
def handle_feedback (st : SageState) (interaction_id : Nat) (rating : Int)
    (feedback_text : Option String) (now : ℚ) : SageState :=
  match getInteraction st interaction_id with
  | none => st
  | some interaction =>
    let st' := { st with interactions := st.interactions.map (fun it =>
      if it.id == interaction_id
      then { it with user_rating := some rating, completed_at := some now }
      else it) }
    match feedback_text with
    | some txt =>
      if txt == "" then st'
      else store_memory st' interaction.learner_id
        ("feedback_" ++ toString interaction_id) txt "long_term" ((rating : ℚ) / 5) now
    | none => st'

/-- Outcome of an API call: HTTP-level success or error. -/
inductive ApiResult where
  | ok (message : String)
  | err (status : Nat) (message : String)
deriving DecidableEq

/-- The `/feedback` route `submit_feedback`: rejects a rating outside 1–5
with a 400 error before touching any state, otherwise delegates to
`handle_feedback` and reports success. -/
def submit_feedback (st : SageState) (interaction_id : Nat) (rating : Int)
    (feedback_text : Option String) (now : ℚ) : ApiResult × SageState :=
  if rating < 1 || 5 < rating then
    (.err 400 "Rating must be an integer between 1 and 5", st)
  else
    (.ok "Feedback submitted successfully",
     handle_feedback st interaction_id rating feedback_text now)

/-! ## Helper lemmas -/

theorem foldl_pyMaxStep_ge {α : Type} :
    ∀ (xs : List (α × ℚ)) (b : α × ℚ), b.2 ≤ (xs.foldl pyMaxStep b).2 := by
  intro xs
  induction xs with
  | nil => intro b; exact le_refl _
  | cons y ys ih =>
    intro b
    have hstep : b.2 ≤ (pyMaxStep b y).2 := by
      by_cases h : b.2 < y.2
      · simp only [pyMaxStep, if_pos h]
        exact le_of_lt h
      · simp only [pyMaxStep, if_neg h]
        exact le_refl _
    exact le_trans hstep (ih (pyMaxStep b y))

/-- Python `max(..., key=...)` keeps the first element among those with the
maximal key: the fold result splits the list with strictly smaller keys
before it and no larger key anywhere. -/
theorem pyMax_split {α : Type} :
    ∀ (xs : List (α × ℚ)) (x : α × ℚ),
      ∃ l₁ l₂, x :: xs = l₁ ++ (xs.foldl pyMaxStep x) :: l₂
        ∧ (∀ q ∈ l₁, q.2 < (xs.foldl pyMaxStep x).2)
        ∧ (∀ q ∈ l₂, q.2 ≤ (xs.foldl pyMaxStep x).2) := by
  intro xs
  induction xs with
  | nil =>
    intro x
    exact ⟨[], [], rfl, fun q hq => absurd hq (List.not_mem_nil q), fun q hq => absurd hq (List.not_mem_nil q)⟩
  | cons y ys ih =>
    intro x
    have hfold : (y :: ys).foldl pyMaxStep x = ys.foldl pyMaxStep (pyMaxStep x y) := rfl
    by_cases h : x.2 < y.2
    · have hstep : pyMaxStep x y = y := by simp [pyMaxStep, h]
      obtain ⟨l₁, l₂, hsp, h₁, h₂⟩ := ih y
      refine ⟨x :: l₁, l₂, ?_, ?_, ?_⟩
      · rw [hfold, hstep, List.cons_append]
        exact congrArg (x :: ·) hsp
      · intro q hq
        rw [hfold, hstep]
        rcases List.mem_cons.mp hq with rfl | hq'
        · exact lt_of_lt_of_le h (foldl_pyMaxStep_ge ys y)
        · exact h₁ q hq'
      · intro q hq
        rw [hfold, hstep]
        exact h₂ q hq
    · have hstep : pyMaxStep x y = x := by simp [pyMaxStep, h]
      have hyx : y.2 ≤ x.2 := le_of_not_lt h
      obtain ⟨l₁, l₂, hsp, h₁, h₂⟩ := ih x
      cases l₁ with
      | nil =>
        rw [List.nil_append] at hsp
        injection hsp with h1 h2
        refine ⟨[], y :: ys, ?_, ?_, ?_⟩
        · rw [hfold, hstep, List.nil_append, ← h1]
        · intro q hq; exact absurd hq (List.not_mem_nil q)
        · intro q hq
          rw [hfold, hstep, ← h1]
          rcases List.mem_cons.mp hq with rfl | hq'
          · exact hyx
          · have hql : q ∈ l₂ := h2 ▸ hq'
            exact le_trans (h₂ q hql) (le_of_eq (congrArg Prod.snd h1.symm))
      | cons a l₁' =>
        rw [List.cons_append] at hsp
        injection hsp with h1 h2
        have hxlt : x.2 < (ys.foldl pyMaxStep x).2 := by
          have ha := h₁ a (List.mem_cons_self a l₁')
          rwa [← h1] at ha
        refine ⟨x :: y :: l₁', l₂, ?_, ?_, ?_⟩
        · rw [hfold, hstep]
          simp only [List.cons_append]
          exact congrArg (x :: ·) (congrArg (y :: ·) h2)
        · intro q hq
          rw [hfold, hstep]
          rcases List.mem_cons.mp hq with rfl | hq'
          · exact hxlt
          · rcases List.mem_cons.mp hq' with rfl | hq''
            · exact lt_of_le_of_lt hyx hxlt
            · exact h₁ q (List.mem_cons_of_mem a hq'')
        · intro q hq
          rw [hfold, hstep]
          exact h₂ q hq

/-- `filterMap` that preserves first components yields a sublist of the
first-component projection. -/
theorem filterMap_keep_fst_sublist {α β γ : Type} (f : α × β → Option (α × γ))
    (hf : ∀ p q, f p = some q → q.1 = p.1) :
    ∀ l : List (α × β), ((l.filterMap f).map Prod.fst).Sublist (l.map Prod.fst) := by
  intro l
  induction l with
  | nil => simp
  | cons p ps ih =>
    rw [List.filterMap_cons]
    cases hfp : f p with
    | none =>
      rw [List.map_cons]
      exact ih.cons p.1
    | some q =>
      rw [List.map_cons, List.map_cons, hf p q hfp]
      exact ih.cons₂ p.1

/-- The positive-score entries appear in pattern-table declaration order. -/
theorem intentScores_fst_sublist (s : String) :
    ((intentScores s).map Prod.fst).Sublist (intentPatterns.map Prod.fst) := by
  rw [intentScores]
  refine filterMap_keep_fst_sublist _ ?_ intentPatterns
  intro p q h
  by_cases hpos : 0 < rawScore p.2 (pyLower s)
  · rw [if_pos hpos] at h
    cases h
    rfl
  · rw [if_neg hpos] at h
    cases h

theorem mem_insOrd {α : Type} (le : α → α → Bool) (x a : α) :
    ∀ l : List α, a ∈ insOrd le x l → a = x ∨ a ∈ l := by
  intro l
  induction l with
  | nil =>
    intro h
    rw [insOrd] at h
    exact Or.inl (List.mem_singleton.mp h)
  | cons y ys ih =>
    intro h
    rw [insOrd] at h
    split at h
    · rcases List.mem_cons.mp h with rfl | h'
      · exact Or.inl rfl
      · exact Or.inr h'
    · rcases List.mem_cons.mp h with rfl | h'
      · exact Or.inr (List.mem_cons_self _ _)
      · rcases ih h' with rfl | h''
        · exact Or.inl rfl
        · exact Or.inr (List.mem_cons_of_mem _ h'')

theorem mem_sortOrd {α : Type} (le : α → α → Bool) (a : α) :
    ∀ l : List α, a ∈ sortOrd le l → a ∈ l := by
  intro l
  induction l with
  | nil =>
    intro h
    rw [sortOrd] at h
    exact absurd h (List.not_mem_nil a)
  | cons y ys ih =>
    intro h
    rw [sortOrd] at h
    rcases mem_insOrd le y a _ h with rfl | h'
    · exact List.mem_cons_self _ _
    · exact List.mem_cons_of_mem _ (ih h')

/-! ## Claim theorems -/

/-- C3: on any input where every intent category has zero pattern matches —
the empty string included — `classify_intent` returns `Other` with
confidence exactly `0.5`; and every entry of the normalized score table
comes from a category with a strictly positive raw match count (the
division by the word count is reached only for such categories). -/
theorem classify_intent_no_match_fallback :
    (∀ s : String, (∀ p ∈ intentPatterns, rawScore p.2 (pyLower s) = 0) →
      classify_intent s = (IntentType.OTHER, 1/2))
    ∧ (∀ s : String, ∀ q ∈ intentScores s, ∃ p ∈ intentPatterns,
        p.1 = q.1 ∧ 0 < rawScore p.2 (pyLower s) ∧
        q.2 = (rawScore p.2 (pyLower s) : ℚ) / (pyWordCount s : ℚ))
    ∧ classify_intent "" = (IntentType.OTHER, 1/2) := by
  have part1 : ∀ s : String, (∀ p ∈ intentPatterns, rawScore p.2 (pyLower s) = 0) →
      classify_intent s = (IntentType.OTHER, 1/2) := by
    intro s h
    have hempty : intentScores s = [] := by
      rw [intentScores, List.filterMap_eq_nil_iff]
      intro p hp
      rw [if_neg]
      rw [h p hp]
      exact lt_irrefl 0
    simp [classify_intent, hempty, pyMaxBy]
  refine ⟨part1, ?_, part1 "" (by intro p hp; fin_cases hp <;> rfl)⟩
  intro s q hq
  rw [intentScores] at hq
  obtain ⟨p, hp, hfp⟩ := List.mem_filterMap.mp hq
  by_cases hpos : 0 < rawScore p.2 (pyLower s)
  · rw [if_pos hpos] at hfp
    cases hfp
    exact ⟨p, hp, rfl, hpos, rfl⟩
  · rw [if_neg hpos] at hfp
    cases hfp

/-- C3 witness: the all-whitespace input (word count 0) has zero matches in
every category and deterministically yields `Other` at confidence 0.5. -/
theorem classify_intent_no_match_fallback_witness :
    (∀ p ∈ intentPatterns, rawScore p.2 (pyLower " ") = 0)
    ∧ classify_intent " " = (IntentType.OTHER, 1/2) :=
  ⟨by intro p hp; fin_cases hp <;> rfl,
   classify_intent_no_match_fallback.1 " " (by intro p hp; fin_cases hp <;> rfl)⟩

/-- C5: whenever some category scores, the classifier returns a category
whose normalized score is maximal, every category listed before it (in the
declaration order of the pattern table, which the score table inherits as a
sublist) scores strictly less — so ties go to the earliest declared
category — and the confidence is `min(score*2, 1)`. -/
theorem classify_intent_first_highest_wins :
    ∀ s : String, intentScores s ≠ [] →
      ∃ sc l₁ l₂,
        intentScores s = l₁ ++ ((classify_intent s).1, sc) :: l₂
        ∧ (classify_intent s).2 = min (sc * 2) 1
        ∧ (∀ q ∈ l₁, q.2 < sc)
        ∧ (∀ q ∈ l₂, q.2 ≤ sc)
        ∧ ((intentScores s).map Prod.fst).Sublist (intentPatterns.map Prod.fst) := by
  intro s hne
  obtain ⟨x, xs, hl⟩ : ∃ x xs, intentScores s = x :: xs := by
    cases h : intentScores s with
    | nil => exact absurd h hne
    | cons a as => exact ⟨a, as, rfl⟩
  have hc : classify_intent s =
      ((xs.foldl pyMaxStep x).1, min ((xs.foldl pyMaxStep x).2 * 2) 1) := by
    simp only [classify_intent, hl, pyMaxBy]
  obtain ⟨l₁, l₂, hsp, h₁, h₂⟩ := pyMax_split xs x
  refine ⟨(xs.foldl pyMaxStep x).2, l₁, l₂, ?_, ?_, h₁, h₂, intentScores_fst_sublist s⟩
  · rw [hl, hc]
    simpa using hsp
  · rw [hc]

/-- C5 witness: on `"hello"` the score table is non-empty and the theorem
produces the split around the winning category. -/
theorem classify_intent_first_highest_wins_witness :
    intentScores "hello" ≠ [] ∧
    ∃ sc l₁ l₂,
      intentScores "hello" = l₁ ++ ((classify_intent "hello").1, sc) :: l₂
      ∧ (classify_intent "hello").2 = min (sc * 2) 1
      ∧ (∀ q ∈ l₁, q.2 < sc)
      ∧ (∀ q ∈ l₂, q.2 ≤ sc)
      ∧ ((intentScores "hello").map Prod.fst).Sublist (intentPatterns.map Prod.fst) :=
  ⟨by decide, classify_intent_first_highest_wins "hello" (by decide)⟩

unseal Rat.mul Rat.inv Rat.add Rat.sub in
/-- C4 counterexample: on `"How do I fix comma usage in this sentence?"`
the classifier selects `Answer`, not `R Language Use`. -/
theorem classify_comma_example_counterexample :
    (classify_intent "How do I fix comma usage in this sentence?").1 = IntentType.ANSWER
    ∧ IntentType.ANSWER ≠ IntentType.R_LANGUAGE_USE := by
  exact ⟨by decide, by decide⟩

unseal Rat.mul Rat.inv Rat.add Rat.sub in
/-- C4 amended: on `"How do I fix comma usage in this sentence?"` the raw
match counts of `Answer` and `R Language Use` tie at 2 over 9 words, the
declaration-order tie-break selects `Answer`, and the returned confidence is
`4/9`, strictly greater than 0 and at most 1. -/
theorem classify_comma_example_amended :
    classify_intent "How do I fix comma usage in this sentence?" = (IntentType.ANSWER, 4/9)
    ∧ rawIntentScore IntentType.ANSWER "How do I fix comma usage in this sentence?" = 2
    ∧ rawIntentScore IntentType.R_LANGUAGE_USE "How do I fix comma usage in this sentence?" = 2
    ∧ pyWordCount "How do I fix comma usage in this sentence?" = 9
    ∧ ((0:ℚ) < 4/9 ∧ (4:ℚ)/9 ≤ 1) := by
  exact ⟨by decide, by decide, by decide, by decide, by norm_num, by norm_num⟩

unseal Rat.mul Rat.inv Rat.add Rat.sub in
/-- C7: every quality criterion scores
`max(0, min(1, positive_present/total_indicators − 0.2 × negative_present))`,
where an indicator counts when it occurs as a case-insensitive substring of
the response; the empty response scores 0 on every criterion. -/
theorem criterion_score_formula :
    (∀ c ∈ quality_criteria, ∀ content : String,
      calculate_criterion_score content c =
        max 0 (min 1 ((countPresent c.indicators (pyLower content) : ℚ) / (c.indicators.length : ℚ)
          - (countPresent c.negative_indicators (pyLower content) : ℚ) * (1/5))))
    ∧ (∀ c ∈ quality_criteria, calculate_criterion_score "" c = 0) := by
  constructor
  · intro c hc content
    fin_cases hc <;>
      simp [calculate_criterion_score, clarityCriterion, accuracyCriterion,
        helpfulnessCriterion, engagementCriterion]
  · intro c hc
    fin_cases hc <;> decide

unseal Rat.mul Rat.inv Rat.add Rat.sub in
/-- C7 witness: the clarity criterion, evaluated on the empty response. -/
theorem criterion_score_formula_witness :
    clarityCriterion ∈ quality_criteria
    ∧ calculate_criterion_score "" clarityCriterion = 0 :=
  ⟨by decide, criterion_score_formula.2 clarityCriterion (by decide)⟩

/-- C1: the approval decision equals `overall ≥ 0.7 AND no bias detected`;
in particular any detected bias forces rejection regardless of the score. -/
theorem approved_requires_high_score_and_no_bias :
    ∀ (content : String) (lid : Option Nat) (store : List Interaction),
      ((validate_response content lid store).approved = true ↔
        ((7:ℚ)/10 ≤ (validate_response content lid store).overall_score
          ∧ (validate_response content lid store).bias_detection.detected_biases = []))
      ∧ ((validate_response content lid store).bias_detection.detected_biases ≠ [] →
          (validate_response content lid store).approved = false) := by
  intro content lid store
  constructor
  · simp only [validate_response]
    rw [Bool.and_eq_true, decide_eq_true_iff, List.isEmpty_iff]
  · intro hne
    simp only [validate_response] at hne ⊢
    have hfalse : (detect_bias content).detected_biases.isEmpty = false := by
      rcases h : (detect_bias content).detected_biases.isEmpty with _ | _
      · rfl
      · exact absurd (List.isEmpty_iff.mp h) hne
    rw [hfalse, Bool.and_false]

/-- C1 witness: a response matching the `native speaker` linguistic-bias
regex has a non-empty detected-bias list and is rejected. -/
theorem approved_requires_high_score_and_no_bias_witness :
    (validate_response "You are a native speaker." none []).bias_detection.detected_biases ≠ []
    ∧ (validate_response "You are a native speaker." none []).approved = false :=
  ⟨by decide,
   (approved_requires_high_score_and_no_bias "You are a native speaker." none []).2 (by decide)⟩

/-- C2: the overall validation score is
`round3(0.4 × mean of the 4 quality scores + 0.3 × mean of the 4 compliance
scores + 0.2 × (1 if bias-free else 0) + 0.1 × overall consistency)`. -/
theorem overall_score_weighted_formula :
    ∀ (content : String) (lid : Option Nat) (store : List Interaction),
      (validate_response content lid store).overall_score =
        pyRound3 ((2/5) * ((((validate_response content lid store).quality_scores.map Prod.snd).sum) / 4)
          + (3/10) * ((((validate_response content lid store).educational_compliance.map Prod.snd).sum) / 4)
          + (1/5) * (if (validate_response content lid store).bias_detection.bias_free then 1 else 0)
          + (1/10) * consistencyScoreUsed (validate_response content lid store).consistency_check) := by
  intro content lid store
  simp only [validate_response, calculate_overall_score]
  have hq : ((assess_quality content).length : ℚ) = 4 := by
    simp [assess_quality, quality_criteria]
  have he : ((check_educational_standards content).length : ℚ) = 4 := by
    simp [check_educational_standards, educational_standards]
  rw [hq, he]
  congr 1
  ring

/-- C9: with no prior response-bearing interactions the overall consistency
score is exactly 1, on both code paths: a missing learner id yields a
result without the `overall_consistency` key (read back as the default 1),
and an empty recent-interaction list yields `overall_consistency = 1`. -/
theorem consistency_defaults_to_one :
    (∀ (content : String) (store : List Interaction),
      (validate_response content none store).consistency_check.overall_consistency = none
      ∧ consistencyScoreUsed (validate_response content none store).consistency_check = 1)
    ∧ (∀ (content : String) (store : List Interaction) (lid : Nat), lid ≠ 0 →
        get_recent_interactions store lid 5 = [] →
        (validate_response content (some lid) store).consistency_check.overall_consistency = some 1
        ∧ consistencyScoreUsed (validate_response content (some lid) store).consistency_check = 1) := by
  constructor
  · intro content store
    exact ⟨rfl, rfl⟩
  · intro content store lid hlid hrec
    have hl0 : (lid == 0) = false := by
      simpa using hlid
    have hcc : (validate_response content (some lid) store).consistency_check
        = check_consistency content (some lid) store := rfl
    rw [hcc, check_consistency]
    simp only [hl0, Bool.false_eq_true, if_false, hrec]
    norm_num [assess_consistency_aspect, consistency_checks, consistencyScoreUsed]

/-- C9 witness: a fresh learner (id 1, empty store) on both conjuncts. -/
theorem consistency_defaults_to_one_witness :
    ((validate_response "hi" none []).consistency_check.overall_consistency = none
      ∧ consistencyScoreUsed (validate_response "hi" none []).consistency_check = 1)
    ∧ ((1:Nat) ≠ 0 ∧ get_recent_interactions [] 1 5 = []
      ∧ (validate_response "hi" (some 1) []).consistency_check.overall_consistency = some 1
      ∧ consistencyScoreUsed (validate_response "hi" (some 1) []).consistency_check = 1) :=
  ⟨consistency_defaults_to_one.1 "hi" [],
   by
    have h := consistency_defaults_to_one.2 "hi" [] 1 (by decide) rfl
    exact ⟨by decide, rfl, h.1, h.2⟩⟩

/-- C6: every record returned by `retrieve_memory` is an `update_access`
image of a stored record: its access count is the stored count plus one and
its retention strength is recomputed as
`importance × 1/(1 + 0.1 × age_days)` with `age_days` the elapsed time
since creation; moreover for positive importance this retention is a
strictly decreasing function of age, so retention recomputed at a larger
age is never larger. -/
theorem retrieve_memory_updates_access :
    (∀ (store : List AgentMemory) (lid : Nat) (k t : Option String) (lim : Nat) (now : ℚ),
      ∀ x ∈ retrieve_memory store lid k t lim now,
        ∃ m ∈ store, x = update_access m now
          ∧ x.access_count = m.access_count + 1
          ∧ x.retention_strength
              = m.importance_score * (1 / (1 + (1/10) * ((now - m.created_at) / 86400))))
    ∧ (∀ imp a₁ a₂ : ℚ, 0 < imp → 0 ≤ a₁ → a₁ < a₂ →
        retentionAt imp a₂ < retentionAt imp a₁) := by
  constructor
  · intro store lid k t lim now x hx
    simp only [retrieve_memory] at hx
    obtain ⟨m, hm, rfl⟩ := List.mem_map.mp hx
    have h2 := mem_sortOrd memOrder m _ (List.take_subset lim _ hm)
    have hmem : m ∈ store := by
      repeat' split at h2
      all_goals
        first
          | exact List.filter_subset' _ (List.filter_subset' _ (List.filter_subset' _ h2))
          | exact List.filter_subset' _ (List.filter_subset' _ h2)
          | exact List.filter_subset' _ h2
    exact ⟨m, hmem, rfl, rfl, rfl⟩
  · intro imp a₁ a₂ h0 h1 h2
    rw [retentionAt, retentionAt, mul_one_div, mul_one_div]
    exact div_lt_div_of_pos_left h0 (by linarith) (by linarith)

unseal Rat.mul Rat.inv Rat.add Rat.sub in
/-- C6 witness: one stored memory with importance 1, retrieved one day after
creation; and the strict decay inequality at ages 0 < 1. -/
theorem retrieve_memory_updates_access_witness :
    (∃ m ∈ [(⟨1, 7, "k", "short_term", "c", 1, 0, 0, 1, 1, 0⟩ : AgentMemory)],
        update_access ⟨1, 7, "k", "short_term", "c", 1, 0, 0, 1, 1, 0⟩ 86400 = update_access m 86400
        ∧ (update_access (⟨1, 7, "k", "short_term", "c", 1, 0, 0, 1, 1, 0⟩ : AgentMemory) 86400).access_count
            = m.access_count + 1
        ∧ (update_access (⟨1, 7, "k", "short_term", "c", 1, 0, 0, 1, 1, 0⟩ : AgentMemory) 86400).retention_strength
            = m.importance_score * (1 / (1 + (1/10) * ((86400 - m.created_at) / 86400))))
    ∧ retentionAt 1 1 < retentionAt 1 0 :=
  ⟨retrieve_memory_updates_access.1 [⟨1, 7, "k", "short_term", "c", 1, 0, 0, 1, 1, 0⟩]
      7 none none 10 86400 _ (by decide),
   retrieve_memory_updates_access.2 1 0 1 (by norm_num) (by norm_num) (by norm_num)⟩

/-- C8: a rating outside 1–5 is rejected with a 400 error and the state is
untouched; a successful submission with rating 5 and non-empty feedback for
an existing interaction appends exactly one long-term memory whose
importance is `5/5 = 1`. -/
theorem submit_feedback_contract :
    (∀ (st : SageState) (iid : Nat) (rating : Int) (fb : Option String) (now : ℚ),
      (rating < 1 ∨ 5 < rating) →
      submit_feedback st iid rating fb now
        = (ApiResult.err 400 "Rating must be an integer between 1 and 5", st))
    ∧ (∀ (st : SageState) (iid : Nat) (fb : String) (now : ℚ) (it : Interaction),
        getInteraction st iid = some it → fb ≠ "" →
        (submit_feedback st iid 5 (some fb) now).1 = ApiResult.ok "Feedback submitted successfully"
        ∧ (submit_feedback st iid 5 (some fb) now).2.memories
            = st.memories ++
              [ { id := st.memories.length + 1, learner_id := it.learner_id,
                  memory_key := "feedback_" ++ toString iid, memory_type := "long_term",
                  content := fb, importance_score := (5:ℚ)/5, access_count := 0,
                  last_accessed := now, decay_factor := 1, retention_strength := 1,
                  created_at := now } ]
        ∧ ((5:ℚ)/5 = 1)) := by
  constructor
  · intro st iid rating fb now hr
    rw [submit_feedback, if_pos]
    rcases hr with h | h <;> simp [h]
  · intro st iid fb now it hit hfb
    have hcond : ¬(((5:Int) < 1 || 5 < (5:Int)) = true) := by decide
    have hfb' : (fb == "") = false := by
      simpa using hfb
    rw [submit_feedback, if_neg hcond, handle_feedback, hit]
    simp only [hfb', Bool.false_eq_true, if_false, store_memory]
    refine ⟨trivial, ?_, by norm_num⟩
    push_cast
    rfl

unseal Rat.mul Rat.inv Rat.add Rat.sub in
/-- C8 witness: state with one interaction (id 1, learner 7), rating 5 and
feedback text `"great"`; plus the invalid-rating rejection at rating 9. -/
theorem submit_feedback_contract_witness :
    (submit_feedback ⟨[⟨1, 7, "hi", none, none, none⟩], []⟩ 1 9 none 0
      = (ApiResult.err 400 "Rating must be an integer between 1 and 5",
         ⟨[⟨1, 7, "hi", none, none, none⟩], []⟩))
    ∧ (getInteraction ⟨[⟨1, 7, "hi", none, none, none⟩], []⟩ 1 = some ⟨1, 7, "hi", none, none, none⟩
      ∧ "great" ≠ ""
      ∧ (submit_feedback ⟨[⟨1, 7, "hi", none, none, none⟩], []⟩ 1 5 (some "great") 0).1
          = ApiResult.ok "Feedback submitted successfully"
      ∧ (submit_feedback ⟨[⟨1, 7, "hi", none, none, none⟩], []⟩ 1 5 (some "great") 0).2.memories
          = [⟨1, 7, "feedback_1", "long_term", "great", (5:ℚ)/5, 0, 0, 1, 1, 0⟩]) :=
  ⟨submit_feedback_contract.1 ⟨[⟨1, 7, "hi", none, none, none⟩], []⟩ 1 9 none 0 (by norm_num),
   by
    have h := submit_feedback_contract.2 ⟨[⟨1, 7, "hi", none, none, none⟩], []⟩ 1 "great" 0
      ⟨1, 7, "hi", none, none, none⟩ rfl (by decide)
    exact ⟨rfl, by decide, h.1, by rw [h.2.1]; rfl⟩⟩

/-- C10: submitting feedback with a valid rating for an interaction id that
resolves to no stored interaction succeeds at the API level while changing
no state at all: no rating, no completion timestamp, no memory. -/
theorem submit_feedback_unknown_interaction_noop :
    ∀ (st : SageState) (iid : Nat) (rating : Int) (fb : Option String) (now : ℚ),
      1 ≤ rating → rating ≤ 5 →
      getInteraction st iid = none →
      submit_feedback st iid rating fb now
        = (ApiResult.ok "Feedback submitted successfully", st) := by
  intro st iid rating fb now h1 h5 hnone
  rw [submit_feedback, if_neg, handle_feedback, hnone]
  intro hcond
  rcases Bool.or_eq_true_iff.mp hcond with h | h
  · exact absurd (of_decide_eq_true h) (by omega)
  · exact absurd (of_decide_eq_true h) (by omega)

/-- C10 witness: empty state, unknown interaction id 3, rating 4. -/
theorem submit_feedback_unknown_interaction_noop_witness :
    ((1:Int) ≤ 4 ∧ (4:Int) ≤ 5 ∧ getInteraction ⟨[], []⟩ 3 = none)
    ∧ submit_feedback ⟨[], []⟩ 3 4 (some "nice") 0
        = (ApiResult.ok "Feedback submitted successfully", ⟨[], []⟩) :=
  ⟨⟨by norm_num, by norm_num, rfl⟩,
   submit_feedback_unknown_interaction_noop ⟨[], []⟩ 3 4 (some "nice") 0
     (by norm_num) (by norm_num) rfl⟩

end EvoWrite
